import Mathlib

/-!
Shallow embedding of the personal-library application (`src/app.py`).

The application keeps its catalog as a pandas `DataFrame` held in
`st.session_state.library_df`; each row is one book with the columns
`Title, Author, ISBN, Genre, Publication Year, Pages, Current Page,
Status, Rating, Review, Date Added, Date Finished, Cover Image`.
We embed a row as the structure `Book` (all string columns as `String`,
`Publication Year` and `Rating` as `Int`, `Pages` and `Current Page`
as `Nat` — the widgets enforce non-negative integers) and the DataFrame
as a `List Book` in row order.

Cover files live in the `book_covers` directory; we embed the directory
as an association list from file path to file content (`FileStore`).
The CSV persistence (`save_data`) is embedded as the `saved` snapshot
field of `LibraryState`.  The embedding covers a single session on
string-typed in-session data, which is the data model the program
itself constructs (`add_book` initialises every text column with a
string; the spec likewise mandates empty strings, not null markers).

`datetime.date.today()` is passed explicitly as a `today : String`
argument wherever the code calls it.
-/

/-- One row of `library_df` (one book record). -/
structure Book where
  title : String
  author : String
  isbn : String
  genre : String
  pubYear : Int
  pages : Nat
  currentPage : Nat
  status : String
  rating : Int
  review : String
  dateAdded : String
  dateFinished : String
  coverImage : String
deriving Repr, DecidableEq, Inhabited

/-- The `book_covers` directory: association list from file path to
file content (the bytes written by `f.write(uploaded_file.getbuffer())`,
embedded as a `String` token). -/
abbrev FileStore := List (String × String)

/-- A file handed over by `st.file_uploader`: its client-side name and
its content. -/
structure UploadedFile where
  name : String
  content : String
deriving Repr, DecidableEq, Inhabited

/-- Look a path up in the directory. -/
def fsLookup : FileStore → String → Option String
  | [], _ => none
  | (k, v) :: rest, p => if k = p then some v else fsLookup rest p

/-- `os.path.exists` on the embedded directory. -/
def fileExists (fs : FileStore) (path : String) : Bool :=
  (fsLookup fs path).isSome

/-- `open(path, "wb")` followed by a full write: creates the file or
overwrites its content in place. -/
def writeFile : FileStore → String → String → FileStore
  | [], p, c => [(p, c)]
  | (k, v) :: rest, p, c =>
      if k = p then (k, c) :: rest else (k, v) :: writeFile rest p c

/-- `os.remove` on the embedded directory. -/
def removeFile : FileStore → String → FileStore
  | [], _ => []
  | (k, v) :: rest, p =>
      if k = p then removeFile rest p else (k, v) :: removeFile rest p

/-- The set (list) of paths present in the directory. -/
def pathsOf (fs : FileStore) : List String := fs.map Prod.fst

/-- Whole-program state: the in-memory DataFrame, the cover directory and
the last CSV snapshot written by `save_data`. -/
structure LibraryState where
  library_df : List Book
  covers : FileStore
  saved : List Book
deriving Repr, DecidableEq, Inhabited

/-- Row access `df.iloc[i]` / `df.at[i, …]` reads (rows carry the default
integer index, so the label is the position). -/
def getBook (df : List Book) (i : Nat) : Book := df.getD i default

/-- Point update of row `i` (the block of `df.at[index, …] = …`
assignments acting on one row). -/
def listModify : List Book → Nat → (Book → Book) → List Book
  | [], _, _ => []
  | b :: bs, 0, f => f b :: bs
  | b :: bs, n + 1, f => b :: listModify bs n f

/-- Python `str.split` on a one-character separator (the code splits on
`'.'`): cuts at every separator occurrence, keeping empty pieces, and
never returns an empty list. -/
def splitOnCharAux (sep : Char) : List Char → List Char → List (List Char)
  | [], acc => [acc.reverse]
  | c :: cs, acc =>
      if c = sep then acc.reverse :: splitOnCharAux sep cs []
      else splitOnCharAux sep cs (c :: acc)

/-- `uploaded_file.name.split('.')[-1]` — `[-1]` takes the last element
of the non-empty split result. -/
def file_extension_of (name : String) : String :=
  ⟨(splitOnCharAux '.' name.toList []).getLastD []⟩

/-- `handle_cover_upload(uploaded_file, isbn)` (src/app.py:38-45):
derives `book_covers/{isbn}.{extension}` and writes the uploaded bytes
there (overwriting any existing file at that exact path), returning the
filename; returns `None` and writes nothing when no file was given. -/
def handle_cover_upload (uploaded_file : Option UploadedFile) (isbn : String)
    (covers : FileStore) : Option String × FileStore :=
  match uploaded_file with
  | some f =>
      let file_extension := file_extension_of f.name
      let cover_filename := "book_covers/" ++ isbn ++ "." ++ file_extension
      (some cover_filename, writeFile covers cover_filename f.content)
  | none => (none, covers)

/-- The placeholder image URL used when a cover is absent. -/
def placeholderCover : String := "https://via.placeholder.com/150x200?text=No+Cover"

/-- `display_cover(cover_path)` (src/app.py:47-51): shows the stored
file when the path is truthy and the file exists, else the placeholder.
We return which image is displayed. -/
def display_cover (covers : FileStore) (cover_path : String) : String :=
  if cover_path ≠ "" ∧ fileExists covers cover_path = true then cover_path
  else placeholderCover

/-- `add_book` (src/app.py:53-75): builds the new row (progress 0,
status `Unread`, rating 0, `Date Added` = today, empty review and
`Date Finished`, cover from `handle_cover_upload` when a file is given),
appends it with `pd.concat(..., ignore_index=True)` and persists with
`save_data()`. -/
def add_book (s : LibraryState) (today : String)
    (title author isbn genre : String) (year : Int) (pages : Nat)
    (cover_file : Option UploadedFile) : LibraryState :=
  let uploaded := match cover_file with
    | some _ =>
        let r := handle_cover_upload cover_file isbn s.covers
        (r.1.getD "", r.2)
    | none => ("", s.covers)
  let new_book : Book :=
    { title := title, author := author, isbn := isbn, genre := genre,
      pubYear := year, pages := pages, currentPage := 0,
      status := "Unread", rating := 0, review := "",
      dateAdded := today, dateFinished := "", coverImage := uploaded.1 }
  let df := s.library_df ++ [new_book]
  { library_df := df, covers := uploaded.2, saved := df }

/-- The submit branch of `show_add_book_form` (src/app.py:133-137):
`if not title or not author or not pages:` show an error and leave the
state untouched, else call `add_book`.  Returned pair: the state after
the click and the error message, if one was shown. -/
def show_add_book_form_submit (s : LibraryState) (today : String)
    (title author isbn genre : String) (year : Int) (pages : Nat)
    (cover_file : Option UploadedFile) : LibraryState × Option String :=
  if title = "" ∨ author = "" ∨ pages = 0 then
    (s, some "Please fill in all required fields (marked with *)")
  else
    (add_book s today title author isbn genre year pages cover_file, none)

/-- The ten consecutive `df.at[index, …] = …` writes of `update_book`
(src/app.py:78-87), as one row update. -/
def updateFields (title author isbn genre : String) (year : Int)
    (pages current_page : Nat) (status : String) (rating : Int)
    (review : String) (b : Book) : Book :=
  { b with title := title, author := author, isbn := isbn, genre := genre,
           pubYear := year, pages := pages, currentPage := current_page,
           status := status, rating := rating, review := review }

/-- `update_book` (src/app.py:77-98): the field writes on row `index`,
then the write-once `Date Finished` rule, then the optional cover
replacement, then `save_data()`. -/
def update_book (s : LibraryState) (today : String) (index : Nat)
    (title author isbn genre : String) (year : Int)
    (pages current_page : Nat) (status : String) (rating : Int)
    (review : String) (cover_file : Option UploadedFile) : LibraryState :=
  let df := listModify s.library_df index
    (updateFields title author isbn genre year pages current_page status rating review)
  let df :=
    if status = "Completed" ∧ (getBook df index).dateFinished = "" then
      listModify df index (fun b => { b with dateFinished := today })
    else df
  let next : List Book × FileStore :=
    match cover_file with
    | none => (df, s.covers)
    | some _ =>
        let r := handle_cover_upload cover_file isbn s.covers
        match r.1 with
        | some cover_path =>
            if cover_path ≠ "" then
              (listModify df index (fun b => { b with coverImage := cover_path }), r.2)
            else (df, r.2)
        | none => (df, r.2)
  { library_df := next.1, covers := next.2, saved := next.1 }

/-- `delete_book` (src/app.py:100-107): removes the row's cover file
when it exists, drops the row with `drop(index).reset_index(drop=True)`
(remaining rows re-compact) and persists. -/
def delete_book (s : LibraryState) (index : Nat) : LibraryState :=
  let cover_path := (getBook s.library_df index).coverImage
  let covers :=
    if cover_path ≠ "" ∧ fileExists s.covers cover_path = true then
      removeFile s.covers cover_path
    else s.covers
  let df := s.library_df.eraseIdx index
  { library_df := df, covers := covers, saved := df }

/-- The Average Rating metric of `show_statistics` (src/app.py:315-330)
and of the sidebar quick stats (src/app.py:386-393): both early-return /
skip when the DataFrame is empty, and otherwise display
`library_df['Rating'].mean()`, the pandas mean of the whole Rating
column (sum of all ratings divided by the number of rows; every value
involved is exactly representable, so the float result is the rational
below). -/
def show_statistics_averageRating (df : List Book) : Option ℚ :=
  if df = [] then none
  else some ((df.map (fun b => (b.rating : ℚ))).sum / (df.length : ℚ))

/-- Modelled from the spec for comparison (refinement target, §4.5):
`averageRating` over records with `rating > 0` only, `0` when no rated
record exists. -/
def averageRating_spec (df : List Book) : ℚ :=
  let rated := df.filter (fun b => 0 < b.rating)
  if rated.length = 0 then 0
  else (rated.map (fun b => (b.rating : ℚ))).sum / (rated.length : ℚ)

/-!
### Query pipeline (`show_search_filters` + `filter_and_sort_books`)

`filter_and_sort_books` (src/app.py:274-313) filters the DataFrame by
text / genre / status / year / rating and then sorts it with
`DataFrame.sort_values(by=…, ascending=…)`.

Pandas details embedded below, from the library source:
* `Series.str.contains(pat)` defaults to `regex=True` and performs
  `re.search(pat, s)` on each element.  We embed `re.search` for the
  pattern fragment the development exercises: patterns built from
  literal characters and the metacharacter `.` (which matches any
  single character; none of our texts contain a newline).
* `DataFrame.sort_values` with a single key and the default
  `kind="quicksort"` computes the row permutation with
  `nargsort(keys, kind="quicksort", ascending=…)`, which (with no
  missing values) is `np.argsort(kind="quicksort")` for ascending
  order, and reverse / argsort / reverse for descending order.
  `np.argsort(kind="quicksort")` is numpy's introsort `aquicksort`:
  median-of-3 quicksort down to partitions of at most
  `SMALL_QUICKSORT = 15` elements (so whole arrays of at most 16
  elements), which are finished by insertion sort, with a
  depth-limited fallback to `aheapsort`.  It is embedded operation by
  operation below.
-/

/-- Python string `<` (used by numpy to compare object-dtype cells):
lexicographic on code points. -/
def pyCharsLt : List Char → List Char → Bool
  | [], [] => false
  | [], _ :: _ => true
  | _ :: _, [] => false
  | a :: as, b :: bs => if a < b then true else if b < a then false else pyCharsLt as bs

/-- A sort-key cell: the four sortable columns hold strings
(`Date Added`, `Title`, `Author`) or integers (`Rating`). -/
inductive SortVal where
  | s (v : String)
  | i (v : Int)
deriving Repr, DecidableEq, Inhabited

/-- The `LT` comparison numpy's sorts use on the cells. -/
def svLt : SortVal → SortVal → Bool
  | .s a, .s b => pyCharsLt a.toList b.toList
  | .i a, .i b => decide (a < b)
  | _, _ => false

/-- `re` pattern match at the start of `text`, for patterns made of
literal characters and `.` (a `.` matches any single character). -/
def reMatchHere : List Char → List Char → Bool
  | [], _ => true
  | _ :: _, [] => false
  | p :: ps, c :: cs => (p == '.' || p == c) && reMatchHere ps cs

/-- `re.search(pattern, text)` for the same pattern fragment: the
pattern matches starting at some position of `text`. -/
def reSearch (pattern text : String) : Bool :=
  (List.range (text.length + 1)).any
    (fun i => reMatchHere pattern.toList (text.toList.drop i))

/-- Literal (non-regex) substring test, used to state the spec's
reading of the text filter: `query` occurs verbatim in `text`. -/
def containsSubstrLit (text query : String) : Bool :=
  (List.range (text.length + 1)).any
    (fun i => query.toList.isPrefixOf (text.toList.drop i))

/-- The characters the Python `re` module treats specially; outside the
embedded fragment only when they occur in a pattern. -/
def reMetachars : List Char := ['.', '^', '$', '*', '+', '?', '\\', '[', ']', '|', '(', ')', '\x7b', '\x7d']

/-- The filter dictionary built by `show_search_filters`
(src/app.py:264-272). -/
structure Filters where
  search_query : String
  genre_filter : List String
  status_filter : List String
  year_min : Int
  year_max : Int
  rating_filter : Int
  sort_option : String
deriving Repr, DecidableEq, Inhabited

/-- Python `str.lower()`: each character lowercased (character-wise on
the ASCII data these fields hold). -/
def strLower (s : String) : String := ⟨s.toList.map Char.toLower⟩

/-- The per-row text predicate of the search filter
(src/app.py:279-283): the lowercased query, as a regex, is searched in
the lowercased title or the lowercased author. -/
def textMatchCode (search_query : String) (b : Book) : Bool :=
  reSearch (strLower search_query) (strLower b.title) ||
  reSearch (strLower search_query) (strLower b.author)

/-- The text stage of `filter_and_sort_books` (src/app.py:278-283):
skipped entirely when `filters['search_query']` is falsy (empty). -/
def textFilterStage (filters : Filters) (df : List Book) : List Book :=
  if filters.search_query ≠ "" then df.filter (textMatchCode filters.search_query)
  else df

/-- `sort_mapping.get(filters['sort_option'], ('Date Added', False))`
(src/app.py:299-310): the eight recognised options, defaulting to
`Date Added` descending. -/
def sort_mapping (sort_option : String) : String × Bool :=
  if sort_option = "Date Added (Newest)" then ("Date Added", false)
  else if sort_option = "Date Added (Oldest)" then ("Date Added", true)
  else if sort_option = "Title (A-Z)" then ("Title", true)
  else if sort_option = "Title (Z-A)" then ("Title", false)
  else if sort_option = "Author (A-Z)" then ("Author", true)
  else if sort_option = "Author (Z-A)" then ("Author", false)
  else if sort_option = "Rating (High-Low)" then ("Rating", false)
  else if sort_option = "Rating (Low-High)" then ("Rating", true)
  else ("Date Added", false)

/-- The sort-key cell of a row for the chosen column. -/
def keyOf (sort_column : String) (b : Book) : SortVal :=
  if sort_column = "Title" then .s b.title
  else if sort_column = "Author" then .s b.author
  else if sort_column = "Rating" then .i b.rating
  else .s b.dateAdded

/-- The key cell behind position `i` of the index array `arr`. -/
def keyAt (keys : Array SortVal) (arr : Array Nat) (i : Nat) : SortVal :=
  keys.getD (arr.getD i 0) default

/-- `INTP_SWAP(*pi, *pj)` on the index array. -/
def swapA (arr : Array Nat) (i j : Nat) : Array Nat :=
  let a := arr.getD i 0
  let b := arr.getD j 0
  (arr.setD i b).setD j a

/-- numpy `aquicksort`: `do ++pi; while (LT(v[*pi], vp));` — returns the
final `pi`.  Terminates before running out of array because the pivot
copy sits at `pr - 1`. -/
def scanUp (keys : Array SortVal) (arr : Array Nat) (vp : SortVal) :
    Nat → Nat → Nat
  | 0, p => p + 1
  | fuel + 1, p =>
      let q := p + 1
      if svLt (keyAt keys arr q) vp then scanUp keys arr vp fuel q else q

/-- numpy `aquicksort`: `do --pj; while (LT(vp, v[*pj]));` — returns the
final `pj`.  Terminates before underflowing because the median-of-3 step
left a cell `≤ vp` at `pl`. -/
def scanDown (keys : Array SortVal) (arr : Array Nat) (vp : SortVal) :
    Nat → Nat → Nat
  | 0, p => p - 1
  | fuel + 1, p =>
      let q := p - 1
      if svLt vp (keyAt keys arr q) then scanDown keys arr vp fuel q else q

/-- numpy `aquicksort` partition exchange loop:
`for (;;) { do ++pi …; do --pj …; if (pi >= pj) break; swap; }`;
returns the array and the final `pi`. -/
def partitionLoop (keys : Array SortVal) (arr : Array Nat) (vp : SortVal)
    (pi pj : Nat) : Nat → Array Nat × Nat
  | 0 => (arr, pi)
  | fuel + 1 =>
      let pi' := scanUp keys arr vp (arr.size + 1) pi
      let pj' := scanDown keys arr vp (arr.size + 1) pj
      if pi' ≥ pj' then (arr, pi')
      else partitionLoop keys (swapA arr pi' pj') vp pi' pj' fuel

/-- One numpy `aquicksort` partition of the segment `[pl, pr]`:
median-of-3 pivot selection with the three conditional swaps, pivot
parked at `pr - 1`, exchange scan, pivot restored at `pi`.  Returns the
array and `pi`. -/
def doPartition (keys : Array SortVal) (arr : Array Nat) (pl pr : Nat) :
    Array Nat × Nat :=
  let pm := pl + (pr - pl) / 2
  let arr := if svLt (keyAt keys arr pm) (keyAt keys arr pl) then swapA arr pm pl else arr
  let arr := if svLt (keyAt keys arr pr) (keyAt keys arr pm) then swapA arr pr pm else arr
  let arr := if svLt (keyAt keys arr pm) (keyAt keys arr pl) then swapA arr pm pl else arr
  let vp := keyAt keys arr pm
  let arr := swapA arr pm (pr - 1)
  let r := partitionLoop keys arr vp pl (pr - 1) (pr - pl + 2)
  (swapA r.1 r.2 (pr - 1), r.2)

/-- The `while (pj > pl && LT(vp, v[*pk])) *pj-- = *pk--;` shift of the
insertion sort, finishing with `*pj = vi`. -/
def insPlace (keys : Array SortVal) (arr : Array Nat) (pl vi : Nat)
    (vp : SortVal) (pj : Nat) : Nat → Array Nat
  | 0 => arr.setD pj vi
  | fuel + 1 =>
      if pl < pj ∧ svLt vp (keyAt keys arr (pj - 1)) = true then
        insPlace keys (arr.setD pj (arr.getD (pj - 1) 0)) pl vi vp (pj - 1) fuel
      else arr.setD pj vi

/-- numpy `aquicksort` insertion sort of the segment `[pl, pr]` (the
final pass run on every partition of at most `SMALL_QUICKSORT + 1 = 16`
elements). -/
def insertionSortSeg (keys : Array SortVal) (arr : Array Nat) (pl pr : Nat) :
    Array Nat :=
  (List.range' (pl + 1) (pr + 1 - (pl + 1))).foldl
    (fun arr pi =>
      let vi := arr.getD pi 0
      let vp := keys.getD vi default
      insPlace keys arr pl vi vp pi (pi + 1))
    arr

/-- 1-based cell read of numpy `aheapsort` (`a = tosort - 1` over the
segment starting at `off`). -/
def aGet (arr : Array Nat) (off k : Nat) : Nat := arr.getD (off + k - 1) 0

/-- 1-based cell write of numpy `aheapsort`. -/
def aSet (arr : Array Nat) (off k v : Nat) : Array Nat := arr.setD (off + k - 1) v

/-- The sift-down loop shared by both phases of numpy `aheapsort`:
`for (i = …, j = …; j <= n;) { … }`; returns the array and the final
`i`. -/
def siftDown (keys : Array SortVal) (arr : Array Nat) (off tmp n i j : Nat) :
    Nat → Array Nat × Nat
  | 0 => (arr, i)
  | fuel + 1 =>
      if j ≤ n then
        let j := if j < n then
            (if svLt (keys.getD (aGet arr off j) default) (keys.getD (aGet arr off (j + 1)) default)
             then j + 1 else j)
          else j
        if svLt (keys.getD tmp default) (keys.getD (aGet arr off j) default) then
          siftDown keys (aSet arr off i (aGet arr off j)) off tmp n j (j + j) fuel
        else (arr, i)
      else (arr, i)

/-- numpy `aheapsort` on the segment of length `n` starting at `off`:
heap build (`l = n >> 1` down to `1`) followed by extraction (`n` down
to `2`).  The depth-limit fallback of `aquicksort`. -/
def aheapsortSeg (keys : Array SortVal) (arr0 : Array Nat) (off n : Nat) :
    Array Nat :=
  let built := (List.range (n / 2)).foldl
    (fun arr d =>
      let l := n / 2 - d
      let tmp := aGet arr off l
      let r := siftDown keys arr off tmp n l (2 * l) (n + 2)
      aSet r.1 off r.2 tmp)
    arr0
  ((List.range' 2 (n - 1)).reverse).foldl
    (fun arr m =>
      let tmp := aGet arr off m
      let arr := aSet arr off m (aGet arr off 1)
      let r := siftDown keys arr off tmp (m - 1) 1 2 (n + 2)
      aSet r.1 off r.2 tmp)
    built

/-- The outer `for (;;)` of numpy `aquicksort`: partition segments
longer than `SMALL_QUICKSORT = 15` (falling back to `aheapsort` once
`depth_limit` is spent), insertion-sort the rest, and work through the
explicit segment stack (the larger half is pushed, the smaller half is
processed next). -/
def qsLoop (keys : Array SortVal) : Nat → Array Nat → Nat → Nat → Int →
    List (Nat × Nat) → Array Nat
  | 0, arr, _, _, _, _ => arr
  | fuel + 1, arr, pl, pr, depth, stack =>
      if pl + 16 ≤ pr then
        if depth < 0 then
          let arr := aheapsortSeg keys arr pl (pr - pl + 1)
          match stack with
          | [] => arr
          | (a, b) :: rest => qsLoop keys fuel arr a b (depth - 1) rest
        else
          let r := doPartition keys arr pl pr
          if r.2 - pl < pr - r.2 then
            qsLoop keys fuel r.1 pl (r.2 - 1) (depth - 1) ((r.2 + 1, pr) :: stack)
          else
            qsLoop keys fuel r.1 (r.2 + 1) pr (depth - 1) ((pl, r.2 - 1) :: stack)
      else
        let arr := insertionSortSeg keys arr pl pr
        match stack with
        | [] => arr
        | (a, b) :: rest => qsLoop keys fuel arr a b depth rest

/-- `np.argsort(keys, kind="quicksort")` (numpy `aquicksort`): sorts the
index array `[0, …, n-1]` by the keys; `depth_limit = npy_get_msb(num)
* 2`.  The fuel bounds the outer loop iterations; at most `n` partition
steps and `2 n + 1` pops can occur, so `4 n + 8` is never exhausted. -/
def npArgsortQuick (keys : List SortVal) : List Nat :=
  let n := keys.length
  if n = 0 then []
  else
    (qsLoop keys.toArray (4 * n + 8) (Array.range n) 0 (n - 1)
      (2 * Int.ofNat (Nat.log2 n)) []).toList

/-- pandas `nargsort(items, kind="quicksort", ascending=…)` with no
missing values: plain argsort for ascending, and reverse / argsort /
reindex / reverse for descending. -/
def nargsort (keys : List SortVal) (ascending : Bool) : List Nat :=
  let n := keys.length
  if ascending then npArgsortQuick keys
  else
    let p := npArgsortQuick keys.reverse
    (p.map (fun i => n - 1 - i)).reverse

/-- `df.sort_values(by=sort_column, ascending=ascending)` with the
default `kind="quicksort"`: rows reordered by the `nargsort`
permutation. -/
def sort_values (df : List Book) (sort_column : String) (ascending : Bool) :
    List Book :=
  (nargsort (df.map (keyOf sort_column)) ascending).map (fun i => getBook df i)

/-- `filter_and_sort_books(filters)` (src/app.py:274-313): the five
filter stages (text, genre, status, year range, minimum rating — the
first three skipped on falsy input) followed by the sort. -/
def filter_and_sort_books (df : List Book) (filters : Filters) : List Book :=
  let f := textFilterStage filters df
  let f := if filters.genre_filter ≠ [] then
      f.filter (fun b => filters.genre_filter.contains b.genre)
    else f
  let f := if filters.status_filter ≠ [] then
      f.filter (fun b => filters.status_filter.contains b.status)
    else f
  let f := f.filter (fun b =>
    filters.year_min ≤ b.pubYear ∧ b.pubYear ≤ filters.year_max)
  let f := f.filter (fun b => filters.rating_filter ≤ b.rating)
  let m := sort_mapping filters.sort_option
  sort_values f m.1 m.2

/-! ### Helper lemmas -/

theorem listModify_length (l : List Book) (i : Nat) (f : Book → Book) :
    (listModify l i f).length = l.length := by
  induction l generalizing i with
  | nil => rfl
  | cons b bs ih =>
      cases i with
      | zero => rfl
      | succ n => simpa [listModify] using ih n

theorem getBook_listModify_self (l : List Book) (i : Nat) (f : Book → Book)
    (h : i < l.length) : getBook (listModify l i f) i = f (getBook l i) := by
  induction l generalizing i with
  | nil => simp at h
  | cons b bs ih =>
      cases i with
      | zero => simp [listModify, getBook]
      | succ n =>
          simp only [listModify, getBook, List.getD_cons_succ]
          exact ih n (by simpa using h)

theorem fsLookup_writeFile_self (fs : FileStore) (p c : String) :
    fsLookup (writeFile fs p c) p = some c := by
  induction fs with
  | nil => simp [writeFile, fsLookup]
  | cons kv rest ih =>
      obtain ⟨k, v⟩ := kv
      by_cases hk : k = p
      · simp [writeFile, hk, fsLookup]
      · simp [writeFile, hk, fsLookup, ih]

theorem mem_pathsOf_of_fileExists (fs : FileStore) (p : String)
    (h : fileExists fs p = true) : p ∈ pathsOf fs := by
  induction fs with
  | nil => simp [fileExists, fsLookup] at h
  | cons kv rest ih =>
      obtain ⟨k, v⟩ := kv
      by_cases hk : k = p
      · simp [pathsOf, hk]
      · simp only [fileExists, fsLookup, if_neg hk] at h
        simpa [pathsOf] using Or.inr (ih h)

theorem pathsOf_writeFile_of_mem (fs : FileStore) (p c : String)
    (h : p ∈ pathsOf fs) : pathsOf (writeFile fs p c) = pathsOf fs := by
  induction fs with
  | nil => simp [pathsOf] at h
  | cons kv rest ih =>
      obtain ⟨k, v⟩ := kv
      by_cases hk : k = p
      · simp [writeFile, hk, pathsOf]
      · have hmem : p ∈ pathsOf rest := by
          rcases (by simpa [pathsOf] using h) with h1 | h2
          · exact absurd h1.symm hk
          · simpa [pathsOf] using h2
        simp only [writeFile, if_neg hk, pathsOf, List.map_cons]
        exact congrArg (List.cons k) (ih hmem)

theorem fsLookup_removeFile_self (fs : FileStore) (p : String) :
    fsLookup (removeFile fs p) p = none := by
  induction fs with
  | nil => rfl
  | cons kv rest ih =>
      obtain ⟨k, v⟩ := kv
      by_cases hk : k = p
      · simpa [removeFile, hk] using ih
      · simpa [removeFile, hk, fsLookup] using ih

theorem fileExists_removeFile_self (fs : FileStore) (p : String) :
    fileExists (removeFile fs p) p = false := by
  simp [fileExists, fsLookup_removeFile_self]

theorem cover_filename_ne_empty (isbn ext : String) :
    ("book_covers/" ++ isbn ++ "." ++ ext) ≠ "" := by
  intro h
  have hl := congrArg String.length h
  rw [String.length_append, String.length_append, String.length_append] at hl
  have h12 : ("book_covers/").length = 12 := rfl
  have hdot : (".").length = 1 := rfl
  have h0 : ("" : String).length = 0 := rfl
  omega

/-- What `update_book` leaves in row `index`: every field overwritten
with its argument, `Date Added` untouched, `Date Finished` governed by
the write-once rule, and the cover path recomputed from the supplied
ISBN and the uploaded file's extension when new bytes arrive. -/
theorem update_book_getBook
    (s : LibraryState) (today : String) (index : Nat)
    (title author isbn genre : String) (year : Int)
    (pages current_page : Nat) (status : String) (rating : Int)
    (review : String) (cover_file : Option UploadedFile)
    (h : index < s.library_df.length) :
    getBook (update_book s today index title author isbn genre year pages
        current_page status rating review cover_file).library_df index =
      { title := title, author := author, isbn := isbn, genre := genre,
        pubYear := year, pages := pages, currentPage := current_page,
        status := status, rating := rating, review := review,
        dateAdded := (getBook s.library_df index).dateAdded,
        dateFinished :=
          if status = "Completed" ∧ (getBook s.library_df index).dateFinished = ""
          then today else (getBook s.library_df index).dateFinished,
        coverImage :=
          match cover_file with
          | none => (getBook s.library_df index).coverImage
          | some f => "book_covers/" ++ isbn ++ "." ++ file_extension_of f.name } := by
  have h1 : index < (listModify s.library_df index
      (updateFields title author isbn genre year pages current_page status rating review)).length := by
    rw [listModify_length]; exact h
  have g1 := getBook_listModify_self s.library_df index
    (updateFields title author isbn genre year pages current_page status rating review) h
  cases cover_file with
  | none =>
      simp only [update_book, g1, updateFields]
      by_cases hc : status = "Completed" ∧ (getBook s.library_df index).dateFinished = ""
      · simp only [if_pos hc]
        rw [getBook_listModify_self _ _ _ h1, g1]
        rfl
      · simp only [if_neg hc]
        rw [g1]
        rfl
  | some f =>
      simp only [update_book, handle_cover_upload, g1, updateFields]
      have hne := cover_filename_ne_empty isbn (file_extension_of f.name)
      by_cases hc : status = "Completed" ∧ (getBook s.library_df index).dateFinished = ""
      · simp only [if_pos hc]
        rw [if_pos hne]
        dsimp only
        have h2 : index < (listModify (listModify s.library_df index
            (updateFields title author isbn genre year pages current_page status rating review))
            index (fun b => { b with dateFinished := today })).length := by
          rw [listModify_length]; exact h1
        rw [getBook_listModify_self _ _ _ h2, getBook_listModify_self _ _ _ h1, g1]
        rfl
      · simp only [if_neg hc]
        rw [if_pos hne]
        dsimp only
        rw [getBook_listModify_self _ _ _ h1, g1]
        rfl

/-- After `delete_book`, resolving the deleted row's cover path shows
the placeholder: either the path was empty, or the file was removed, or
it never existed. -/
theorem display_cover_after_delete (s : LibraryState) (i : Nat) :
    display_cover (delete_book s i).covers ((getBook s.library_df i).coverImage) =
      placeholderCover := by
  by_cases h0 : (getBook s.library_df i).coverImage = ""
  · simp [display_cover, h0]
  · by_cases h1 : fileExists s.covers ((getBook s.library_df i).coverImage) = true
    · simp [delete_book, display_cover, h0, h1, fileExists_removeFile_self]
    · simp [delete_book, display_cover, h0, h1]

/-- The cover directory after `update_book` with new bytes: the file at
the path derived from the supplied ISBN and the uploaded name's
extension is (over)written with the new content. -/
theorem update_book_covers_some
    (s : LibraryState) (today : String) (index : Nat)
    (title author isbn genre : String) (year : Int)
    (pages current_page : Nat) (status : String) (rating : Int)
    (review : String) (f : UploadedFile) :
    (update_book s today index title author isbn genre year pages
        current_page status rating review (some f)).covers =
      writeFile s.covers ("book_covers/" ++ isbn ++ "." ++ file_extension_of f.name)
        f.content := by
  have hne := cover_filename_ne_empty isbn (file_extension_of f.name)
  simp only [update_book, handle_cover_upload]
  rw [if_pos hne]

/-- On a pattern with no `.`, the fragment regex match at a position is
the literal prefix test. -/
theorem reMatchHere_no_dot (pat : List Char) (hd : '.' ∉ pat) (t : List Char) :
    reMatchHere pat t = pat.isPrefixOf t := by
  induction pat generalizing t with
  | nil => cases t <;> simp [reMatchHere, List.isPrefixOf]
  | cons p ps ih =>
      have hp : (p == '.') = false := by
        simp only [beq_eq_false_iff_ne]
        exact fun he => hd (by simp [he])
      have hps : '.' ∉ ps := fun hm => hd (List.mem_cons_of_mem _ hm)
      cases t with
      | nil => simp [reMatchHere, List.isPrefixOf]
      | cons c cs => simp [reMatchHere, List.isPrefixOf, hp, ih hps]

/-- On a pattern with no `.`, `re.search` is the literal substring
test. -/
theorem reSearch_no_dot (q t : String) (hd : '.' ∉ q.toList) :
    reSearch q t = containsSubstrLit t q := by
  simp only [reSearch, containsSubstrLit, reMatchHere_no_dot q.toList hd]

theorem getBook_append_self : ∀ (l : List Book) (b : Book), getBook (l ++ [b]) l.length = b
  | [], _ => rfl
  | _ :: xs, b => by simp only [List.cons_append, getBook, List.length_cons,
      List.getD_cons_succ]
                     exact getBook_append_self xs b

theorem mem_pathsOf_writeFile (fs : FileStore) (p c : String) :
    p ∈ pathsOf (writeFile fs p c) := by
  induction fs with
  | nil => simp [writeFile, pathsOf]
  | cons kv rest ih =>
      obtain ⟨k, v⟩ := kv
      by_cases hk : k = p
      · simp [writeFile, hk, pathsOf]
      · simpa [writeFile, hk, pathsOf] using Or.inr ih

/-! ### Claim theorems -/

/-- C5: an add request whose title or author is empty (or whose total
pages value is missing, i.e. falsy) is rejected by the `Add Book` form:
the validation error is shown, `add_book` is never reached, so no record
is appended, no asset is stored, and the whole state — in particular the
catalog size — is unchanged. -/
theorem c5_add_validation (s : LibraryState) (today : String)
    (title author isbn genre : String) (year : Int) (pages : Nat)
    (cover_file : Option UploadedFile)
    (hbad : title = "" ∨ author = "" ∨ pages = 0) :
    show_add_book_form_submit s today title author isbn genre year pages cover_file =
      (s, some "Please fill in all required fields (marked with *)") := by
  simp only [show_add_book_form_submit, if_pos hbad]

theorem c5_add_validation_witness :
    show_add_book_form_submit ⟨[], [], []⟩ "2024-06-01" "" "X" "" "Fiction" 2000 10 none =
      (⟨[], [], []⟩, some "Please fill in all required fields (marked with *)") :=
  c5_add_validation ⟨[], [], []⟩ "2024-06-01" "" "X" "" "Fiction" 2000 10 none (Or.inl rfl)

/-- C8: a valid add request passes the form check and appends exactly
one new record — `Date Added` = today, status `Unread`, progress 0,
rating 0 — leaving every earlier record in place, and the new collection
is persisted (`save_data`) before the success message. -/
theorem c8_add_appends (s : LibraryState) (today : String)
    (title author isbn genre : String) (year : Int) (pages : Nat)
    (cover_file : Option UploadedFile)
    (ht : title ≠ "") (ha : author ≠ "") (hp : pages ≠ 0) :
    (show_add_book_form_submit s today title author isbn genre year pages cover_file).2 = none ∧
    (show_add_book_form_submit s today title author isbn genre year pages cover_file).1 =
      add_book s today title author isbn genre year pages cover_file ∧
    (add_book s today title author isbn genre year pages cover_file).library_df.length =
      s.library_df.length + 1 ∧
    (add_book s today title author isbn genre year pages cover_file).library_df.take
      s.library_df.length = s.library_df ∧
    (getBook (add_book s today title author isbn genre year pages cover_file).library_df
      s.library_df.length).dateAdded = today ∧
    (getBook (add_book s today title author isbn genre year pages cover_file).library_df
      s.library_df.length).status = "Unread" ∧
    (getBook (add_book s today title author isbn genre year pages cover_file).library_df
      s.library_df.length).currentPage = 0 ∧
    (getBook (add_book s today title author isbn genre year pages cover_file).library_df
      s.library_df.length).rating = 0 ∧
    (add_book s today title author isbn genre year pages cover_file).saved =
      (add_book s today title author isbn genre year pages cover_file).library_df := by
  have hgood : ¬(title = "" ∨ author = "" ∨ pages = 0) := by
    push_neg
    exact ⟨ht, ha, hp⟩
  refine ⟨by simp only [show_add_book_form_submit, if_neg hgood],
          by simp only [show_add_book_form_submit, if_neg hgood], ?_, ?_, ?_, ?_, ?_, ?_, rfl⟩
  · simp [add_book]
  · simp only [add_book]
    exact List.take_left s.library_df _
  · simp [add_book, getBook_append_self]
  · simp [add_book, getBook_append_self]
  · simp [add_book, getBook_append_self]
  · simp [add_book, getBook_append_self]

theorem c8_add_appends_witness :
    (getBook (add_book ⟨[], [], []⟩ "2024-06-01" "T" "A" "" "Fiction" 2000 10 none).library_df
      0).dateAdded = "2024-06-01" ∧
    (getBook (add_book ⟨[], [], []⟩ "2024-06-01" "T" "A" "" "Fiction" 2000 10 none).library_df
      0).status = "Unread" := by
  have h := c8_add_appends ⟨[], [], []⟩ "2024-06-01" "T" "A" "" "Fiction" 2000 10 none
    (by decide) (by decide) (by decide)
  exact ⟨h.2.2.2.2.1, h.2.2.2.2.2.1⟩

/-- C6: the `Date Finished` column after `update_book` — it becomes
today exactly when the supplied status is `Completed` and the stored
value was empty; in every other case (in particular whenever it was
already non-empty) it keeps its previous value, so it is write-once. -/
theorem c6_dateFinished_write_once (s : LibraryState) (today : String) (index : Nat)
    (title author isbn genre : String) (year : Int)
    (pages current_page : Nat) (status : String) (rating : Int)
    (review : String) (cover_file : Option UploadedFile)
    (h : index < s.library_df.length) :
    (getBook (update_book s today index title author isbn genre year pages
        current_page status rating review cover_file).library_df index).dateFinished =
      if status = "Completed" ∧ (getBook s.library_df index).dateFinished = ""
      then today else (getBook s.library_df index).dateFinished := by
  rw [update_book_getBook s today index title author isbn genre year pages
    current_page status rating review cover_file h]

/-- A record whose `Date Finished` is already set. -/
def c6Book : Book :=
  { title := "T", author := "A", isbn := "", genre := "Fiction", pubYear := 2000,
    pages := 10, currentPage := 2, status := "Reading", rating := 0, review := "",
    dateAdded := "2024-01-01", dateFinished := "2024-02-02", coverImage := "" }

def c6State : LibraryState := ⟨[c6Book], [], [c6Book]⟩

theorem c6_dateFinished_write_once_witness :
    (getBook (update_book c6State "2024-06-01" 0 "T" "A" "" "Fiction" 2000 10 10
      "Completed" 5 "" none).library_df 0).dateFinished = "2024-02-02" := by
  have h := c6_dateFinished_write_once c6State "2024-06-01" 0 "T" "A" "" "Fiction"
    2000 10 10 "Completed" 5 "" none (by decide)
  simpa [c6State, c6Book] using h

/-- A record with 10 total pages, 3 read. -/
def c2Book : Book :=
  { title := "B", author := "A", isbn := "", genre := "Fiction", pubYear := 2000,
    pages := 10, currentPage := 3, status := "Reading", rating := 0, review := "",
    dateAdded := "2024-01-01", dateFinished := "", coverImage := "" }

def c2State : LibraryState := ⟨[c2Book], [], [c2Book]⟩

/-- The state after an update that lowers `Pages` to 5 while supplying
`Current Page` 10 (the edit form caps the input at the OLD page count,
10, so 10 is enterable). -/
def c2After : LibraryState :=
  update_book c2State "2024-06-01" 0 "B" "A" "" "Fiction" 2000 5 10 "Reading" 0 "" none

/-- C2 counterexample: `update_book` performs no clamping — after the
update the stored `Current Page` is 10 while `Pages` is 5, violating
`0 ≤ progressUnits ≤ totalUnits`. -/
theorem c2_clamp_counterexample :
    (getBook c2After.library_df 0).currentPage = 10 ∧
    (getBook c2After.library_df 0).pages = 5 ∧
    ¬(getBook c2After.library_df 0).currentPage ≤ (getBook c2After.library_df 0).pages := by
  decide

/-- C2 amended: `update_book` stores the supplied `Current Page` (and
`Pages`) verbatim, with no clamping; the only bound comes from the edit
form, which restricts the input to `[0, previous Pages]`, so an update
that lowers `Pages` below the supplied `Current Page` leaves
`Current Page > Pages`. -/
theorem c2_update_stores_raw (s : LibraryState) (today : String) (index : Nat)
    (title author isbn genre : String) (year : Int)
    (pages current_page : Nat) (status : String) (rating : Int)
    (review : String) (cover_file : Option UploadedFile)
    (h : index < s.library_df.length) :
    (getBook (update_book s today index title author isbn genre year pages
        current_page status rating review cover_file).library_df index).currentPage =
      current_page ∧
    (getBook (update_book s today index title author isbn genre year pages
        current_page status rating review cover_file).library_df index).pages = pages := by
  refine ⟨?_, ?_⟩ <;>
    rw [update_book_getBook s today index title author isbn genre year pages
      current_page status rating review cover_file h]

theorem c2_update_stores_raw_witness :
    (getBook (update_book c2State "2024-06-01" 0 "B" "A" "" "Fiction" 2000 7 4
        "Reading" 0 "" none).library_df 0).currentPage = 4 :=
  (c2_update_stores_raw c2State "2024-06-01" 0 "B" "A" "" "Fiction" 2000 7 4
    "Reading" 0 "" none (by decide)).1

/-- Record A of the spec's worked example: rating 4, year 2001,
completed. -/
def c1BookA : Book :=
  { title := "A", author := "aa", isbn := "", genre := "Fiction", pubYear := 2001,
    pages := 100, currentPage := 100, status := "Completed", rating := 4, review := "",
    dateAdded := "2024-01-01", dateFinished := "2024-02-02", coverImage := "" }

/-- Record B of the spec's worked example: rating 0 (unrated), year
1999, unread. -/
def c1BookB : Book :=
  { title := "B", author := "bb", isbn := "", genre := "Fiction", pubYear := 1999,
    pages := 50, currentPage := 0, status := "Unread", rating := 0, review := "",
    dateAdded := "2024-01-02", dateFinished := "", coverImage := "" }

/-- C1 counterexample: the displayed average is `mean()` over the whole
Rating column, so over {A(rating 4), B(rating 0)} it is 2.0 — not the
4.0 the rated-only average (also computed here from the spec's own
definition) would give. -/
theorem c1_averageRating_counterexample :
    show_statistics_averageRating [c1BookA, c1BookB] = some 2 ∧
    show_statistics_averageRating [c1BookA, c1BookB] ≠ some 4 ∧
    averageRating_spec [c1BookA, c1BookB] = 4 := by
  have hne : ([c1BookA, c1BookB] : List Book) ≠ [] := by simp
  refine ⟨?_, ?_, ?_⟩
  · simp only [show_statistics_averageRating, if_neg hne]
    norm_num [c1BookA, c1BookB]
  · simp only [show_statistics_averageRating, if_neg hne]
    norm_num [c1BookA, c1BookB]
  · norm_num [averageRating_spec, c1BookA, c1BookB]

/-- C1 amended: `averageRating` is the mean of the whole Rating column,
records with rating 0 included: over {A(4), B(0)} it is 2.0.  It equals
0 on a non-empty catalog with no rated record only because every rating
is then 0, and it coincides with the spec's rated-only mean exactly on
catalogs in which every record is rated (the statistic is not shown at
all on an empty catalog). -/
theorem c1_averageRating_amended :
    show_statistics_averageRating [c1BookA, c1BookB] = some 2 ∧
    (∀ df : List Book, df ≠ [] → (∀ b ∈ df, b.rating = 0) →
      show_statistics_averageRating df = some 0) ∧
    (∀ df : List Book, df ≠ [] → (∀ b ∈ df, 0 < b.rating) →
      show_statistics_averageRating df = some (averageRating_spec df)) := by
  refine ⟨?_, ?_, ?_⟩
  · have hne : ([c1BookA, c1BookB] : List Book) ≠ [] := by simp
    simp only [show_statistics_averageRating, if_neg hne]
    norm_num [c1BookA, c1BookB]
  · intro df hne h0
    have hsum : (df.map (fun b => (b.rating : ℚ))).sum = 0 := by
      apply List.sum_eq_zero
      intro x hx
      obtain ⟨b, hb, rfl⟩ := List.mem_map.mp hx
      simp [h0 b hb]
    simp [show_statistics_averageRating, hne, hsum]
  · intro df hne hall
    have hf : df.filter (fun b => 0 < b.rating) = df :=
      List.filter_eq_self.mpr (fun b hb => by simpa using hall b hb)
    have hlen : ¬(df.filter (fun b => 0 < b.rating)).length = 0 := by
      rw [hf]
      simpa [List.length_eq_zero] using hne
    simp only [show_statistics_averageRating, averageRating_spec, if_neg hne, if_neg hlen, hf]
    rw [if_neg (show ¬df.length = 0 from by simpa [List.length_eq_zero] using hne)]

theorem c1_averageRating_witness :
    show_statistics_averageRating [c1BookB] = some 0 := by
  have h := c1_averageRating_amended.2.1 [c1BookB] (by simp) ?hall
  · exact h
  · intro b hb
    rw [List.mem_singleton.mp hb]
    rfl

/-- C9: deleting an existing row removes exactly that row (the rest
keep their relative order and re-compact), removes its cover file from
the asset directory, makes a subsequent `display_cover` of that cover
path fall back to the placeholder, and persists the new collection. -/
theorem c9_delete (s : LibraryState) (index : Nat)
    (h : index < s.library_df.length) :
    (delete_book s index).library_df =
      s.library_df.take index ++ s.library_df.drop (index + 1) ∧
    (delete_book s index).library_df.length + 1 = s.library_df.length ∧
    ((getBook s.library_df index).coverImage ≠ "" →
      fileExists (delete_book s index).covers
        ((getBook s.library_df index).coverImage) = false) ∧
    display_cover (delete_book s index).covers
      ((getBook s.library_df index).coverImage) = placeholderCover ∧
    (delete_book s index).saved = (delete_book s index).library_df := by
  refine ⟨?_, ?_, ?_, display_cover_after_delete s index, rfl⟩
  · simpa [delete_book] using List.eraseIdx_eq_take_drop_succ s.library_df index
  · simpa [delete_book] using List.length_eraseIdx_add_one h
  · intro hne
    by_cases hex : fileExists s.covers ((getBook s.library_df index).coverImage) = true
    · simp [delete_book, hne, hex, fileExists_removeFile_self]
    · have hcond : ¬((getBook s.library_df index).coverImage ≠ "" ∧
          fileExists s.covers ((getBook s.library_df index).coverImage) = true) :=
        fun hand => hex hand.2
      simp only [delete_book, if_neg hcond]
      simpa using hex

/-- A record with ISBN `111` whose cover sits at
`book_covers/111.jpg`. -/
def c9Book : Book :=
  { title := "T", author := "A", isbn := "111", genre := "Fiction", pubYear := 2000,
    pages := 10, currentPage := 2, status := "Reading", rating := 0, review := "",
    dateAdded := "2024-01-01", dateFinished := "", coverImage := "book_covers/111.jpg" }

def c9State : LibraryState := ⟨[c9Book], [("book_covers/111.jpg", "bytes")], [c9Book]⟩

theorem c9_delete_witness :
    (delete_book c9State 0).library_df = [] ∧
    fileExists (delete_book c9State 0).covers "book_covers/111.jpg" = false ∧
    display_cover (delete_book c9State 0).covers "book_covers/111.jpg" = placeholderCover := by
  have h := c9_delete c9State 0 (by decide)
  refine ⟨by simpa using h.1, ?_, ?_⟩
  · have := h.2.2.1 (by decide)
    simpa [c9State, c9Book] using this
  · have := h.2.2.2.1
    simpa [c9State, c9Book] using this

/-- C10: the cover path is `book_covers/{isbn}.{extension}`, a function
of the record's ISBN and the uploaded name's extension only.  Hence
(i) two uploads with equal ISBN and extension target the same path,
(ii) storing a cover for a second record with the same ISBN adds no new
file — it overwrites the first record's asset in place — and (iii)
deleting a record whose cover path another record shares leaves that
other record's cover resolving to the placeholder. -/
theorem c10_asset_aliasing :
    (∀ (isbn : String) (f g : UploadedFile) (fs : FileStore),
      file_extension_of f.name = file_extension_of g.name →
      (handle_cover_upload (some f) isbn fs).1 = (handle_cover_upload (some g) isbn fs).1) ∧
    (∀ (isbn : String) (f g : UploadedFile) (fs : FileStore),
      file_extension_of f.name = file_extension_of g.name →
      pathsOf (handle_cover_upload (some g) isbn
          ((handle_cover_upload (some f) isbn fs).2)).2 =
        pathsOf ((handle_cover_upload (some f) isbn fs).2) ∧
      fsLookup (handle_cover_upload (some g) isbn
          ((handle_cover_upload (some f) isbn fs).2)).2
        ("book_covers/" ++ isbn ++ "." ++ file_extension_of f.name) = some g.content) ∧
    (∀ (s : LibraryState) (i j : Nat),
      (getBook s.library_df j).coverImage = (getBook s.library_df i).coverImage →
      display_cover (delete_book s i).covers ((getBook s.library_df j).coverImage) =
        placeholderCover) := by
  refine ⟨?_, ?_, ?_⟩
  · intro isbn f g fs hext
    simp [handle_cover_upload, hext]
  · intro isbn f g fs hext
    constructor
    · simp only [handle_cover_upload, hext]
      exact pathsOf_writeFile_of_mem _ _ _ (mem_pathsOf_writeFile fs _ f.content)
    · simp only [handle_cover_upload, hext]
      exact fsLookup_writeFile_self _ _ _
  · intro s i j hij
    rw [hij]
    exact display_cover_after_delete s i

def c10File1 : UploadedFile := ⟨"one.jpg", "bytesOne"⟩

def c10File2 : UploadedFile := ⟨"two.jpg", "bytesTwo"⟩

theorem c10_asset_aliasing_witness :
    fsLookup (handle_cover_upload (some c10File2) "111"
        ((handle_cover_upload (some c10File1) "111" []).2)).2
      "book_covers/111.jpg" = some "bytesTwo" ∧
    display_cover (delete_book ⟨[c9Book, c9Book], [("book_covers/111.jpg", "bytes")],
        [c9Book, c9Book]⟩ 0).covers
      ((getBook [c9Book, c9Book] 1).coverImage) = placeholderCover := by
  constructor
  · have h := (c10_asset_aliasing.2.1 "111" c10File1 c10File2 [] (by decide)).2
    simpa [c10File1, c10File2] using h
  · have h := c10_asset_aliasing.2.2 ⟨[c9Book, c9Book],
      [("book_covers/111.jpg", "bytes")], [c9Book, c9Book]⟩ 0 1 (by decide)
    simpa using h

/-- A record with ISBN `111` and its cover on disk at
`book_covers/111.jpg`. -/
def c7Book : Book :=
  { title := "T", author := "A", isbn := "111", genre := "Fiction", pubYear := 2000,
    pages := 10, currentPage := 2, status := "Reading", rating := 0, review := "",
    dateAdded := "2024-01-01", dateFinished := "", coverImage := "book_covers/111.jpg" }

def c7State : LibraryState := ⟨[c7Book], [("book_covers/111.jpg", "old")], [c7Book]⟩

/-- The state after an update that changes the ISBN to `222` and
supplies new cover bytes. -/
def c7After : LibraryState :=
  update_book c7State "2024-06-01" 0 "T" "A" "222" "Fiction" 2000 10 2 "Reading" 0 ""
    (some ⟨"new.jpg", "new"⟩)

/-- C7 counterexample: after an update with new asset bytes and a
changed ISBN, the old cover file `book_covers/111.jpg` is still in the
asset directory while no record references it — the old asset is
orphaned, not overwritten. -/
theorem c7_asset_orphan_counterexample :
    fileExists c7After.covers "book_covers/111.jpg" = true ∧
    (∀ b ∈ c7After.library_df, b.coverImage ≠ "book_covers/111.jpg") := by decide

/-- C7 amended: the new bytes overwrite the record's previous asset in
place (same path, no new file, no orphan) exactly when the path derived
from the supplied ISBN and the new file's extension equals the record's
stored cover path; when the ISBN (or extension) changes the old file is
left behind unreferenced. -/
theorem c7_asset_overwrite_amended (s : LibraryState) (today : String) (index : Nat)
    (title author isbn genre : String) (year : Int)
    (pages current_page : Nat) (status : String) (rating : Int)
    (review : String) (f : UploadedFile)
    (h : index < s.library_df.length)
    (hpath : (getBook s.library_df index).coverImage =
      "book_covers/" ++ isbn ++ "." ++ file_extension_of f.name)
    (hex : fileExists s.covers ((getBook s.library_df index).coverImage) = true) :
    (getBook (update_book s today index title author isbn genre year pages
        current_page status rating review (some f)).library_df index).coverImage =
      (getBook s.library_df index).coverImage ∧
    pathsOf (update_book s today index title author isbn genre year pages
        current_page status rating review (some f)).covers = pathsOf s.covers ∧
    fsLookup (update_book s today index title author isbn genre year pages
        current_page status rating review (some f)).covers
      ((getBook s.library_df index).coverImage) = some f.content := by
  refine ⟨?_, ?_, ?_⟩
  · rw [update_book_getBook s today index title author isbn genre year pages
      current_page status rating review (some f) h]
    exact hpath.symm
  · rw [update_book_covers_some]
    rw [hpath] at hex
    exact pathsOf_writeFile_of_mem _ _ _ (mem_pathsOf_of_fileExists _ _ hex)
  · rw [update_book_covers_some, hpath]
    exact fsLookup_writeFile_self _ _ _

theorem c7_asset_overwrite_witness :
    pathsOf (update_book c7State "2024-06-01" 0 "T" "A" "111" "Fiction" 2000 10 2
        "Reading" 0 "" (some ⟨"new.jpg", "new"⟩)).covers = ["book_covers/111.jpg"] ∧
    fsLookup (update_book c7State "2024-06-01" 0 "T" "A" "111" "Fiction" 2000 10 2
        "Reading" 0 "" (some ⟨"new.jpg", "new"⟩)).covers "book_covers/111.jpg" =
      some "new" := by
  have h := c7_asset_overwrite_amended c7State "2024-06-01" 0 "T" "A" "111" "Fiction"
    2000 10 2 "Reading" 0 "" ⟨"new.jpg", "new"⟩ (by decide) (by decide) (by decide)
  exact ⟨by simpa using h.2.1, by simpa using h.2.2⟩

/-- A record whose title contains `tot` but not the literal text
`t.t`. -/
def c4Book : Book :=
  { title := "Total", author := "X", isbn := "", genre := "Fiction", pubYear := 2000,
    pages := 10, currentPage := 0, status := "Unread", rating := 0, review := "",
    dateAdded := "2024-01-01", dateFinished := "", coverImage := "" }

def c4Filters : Filters :=
  { search_query := "t.t", genre_filter := [], status_filter := [],
    year_min := 0, year_max := 3000, rating_filter := 0,
    sort_option := "Date Added (Newest)" }

/-- C4 counterexample: `str.contains` defaults to `regex=True`, so the
query `t.t` is a pattern whose `.` matches any character: the record
titled `Total` passes the text filter although `t.t` is a literal
substring of neither its lowercased title nor its lowercased author. -/
theorem c4_text_filter_counterexample :
    textMatchCode "t.t" c4Book = true ∧
    textFilterStage c4Filters [c4Book] = [c4Book] ∧
    containsSubstrLit (strLower c4Book.title) (strLower "t.t") = false ∧
    containsSubstrLit (strLower c4Book.author) (strLower "t.t") = false := by decide

/-- C4 amended: the text filter is skipped (every record passes) when
the query is empty, and it matches the lowercased query as a regular
expression (`re.search`) against the lowercased title or author — which
coincides with the case-insensitive literal substring test exactly when
the (lowercased) query contains no regex metacharacter. -/
theorem c4_text_filter_amended :
    (∀ (fs : Filters) (df : List Book), fs.search_query = "" →
      textFilterStage fs df = df) ∧
    (∀ (q : String) (b : Book), (∀ c ∈ (strLower q).toList, c ∉ reMetachars) →
      textMatchCode q b =
        (containsSubstrLit (strLower b.title) (strLower q) ||
         containsSubstrLit (strLower b.author) (strLower q))) := by
  constructor
  · intro fs df hq
    simp [textFilterStage, hq]
  · intro q b hmeta
    have hd : '.' ∉ (strLower q).toList := fun hmem => (hmeta '.' hmem) (by decide)
    rw [textMatchCode, reSearch_no_dot _ _ hd, reSearch_no_dot _ _ hd]

theorem c4_text_filter_witness :
    textMatchCode "tot" c4Book =
      (containsSubstrLit (strLower c4Book.title) (strLower "tot") ||
       containsSubstrLit (strLower c4Book.author) (strLower "tot")) :=
  c4_text_filter_amended.2 "tot" c4Book (by decide)

/-- A catalog row whose sort-relevant columns are all identical across
copies; the ISBN tags the row so its movement can be observed. -/
def cbook (id : String) : Book :=
  { title := "T", author := "A", isbn := id, genre := "Fiction", pubYear := 2000,
    pages := 100, currentPage := 0, status := "Unread", rating := 0, review := "",
    dateAdded := "2024-01-01", dateFinished := "", coverImage := "" }

/-- Seventeen records with equal titles (17 is the smallest size at
which numpy's `aquicksort` partitions instead of insertion-sorting). -/
def sortCexDf : List Book :=
  ["a", "b", "c", "d", "e", "f", "g", "h", "i",
   "j", "k", "l", "m", "n", "o", "p", "q"].map cbook

/-- Pass-through filters sorting by title ascending. -/
def sortCexFilters : Filters :=
  { search_query := "", genre_filter := [], status_filter := [],
    year_min := 0, year_max := 3000, rating_filter := 0,
    sort_option := "Title (A-Z)" }

set_option maxRecDepth 40000 in
/-- C3 counterexample: rows 1 (`b`) and 14 (`o`) have equal titles and
appear in the order `b`, `o` in the (unfiltered) input, yet
`filter_and_sort_books` lists `o` before `b` — pandas' default
quicksort reorders ties, so the sort stage is not stable. -/
theorem c3_sort_stability_counterexample :
    (getBook sortCexDf 1).title = (getBook sortCexDf 14).title ∧
    (sortCexDf.map Book.isbn).indexOf "b" < (sortCexDf.map Book.isbn).indexOf "o" ∧
    ((filter_and_sort_books sortCexDf sortCexFilters).map Book.isbn).indexOf "o" <
      ((filter_and_sort_books sortCexDf sortCexFilters).map Book.isbn).indexOf "b" := by
  decide

/-- C3 amended: the sort stage uses pandas' default `quicksort`
(numpy's introsort), which is not stable — ties can be reordered as
soon as more than 16 rows are sorted (below that the algorithm is a
stable insertion sort).  The default-key clause survives: any
unrecognised sort option falls back to `('Date Added', False)`, i.e.
date added descending, so the pipeline behaves exactly as with
`Date Added (Newest)`. -/
theorem c3_sort_default_amended (df : List Book) (filters : Filters)
    (hopt : filters.sort_option ∉ (["Date Added (Newest)", "Date Added (Oldest)",
      "Title (A-Z)", "Title (Z-A)", "Author (A-Z)", "Author (Z-A)",
      "Rating (High-Low)", "Rating (Low-High)"] : List String)) :
    filter_and_sort_books df filters =
      filter_and_sort_books df { filters with sort_option := "Date Added (Newest)" } := by
  simp only [List.mem_cons, List.not_mem_nil, or_false, not_or] at hopt
  obtain ⟨h1, h2, h3, h4, h5, h6, h7, h8⟩ := hopt
  have hm : sort_mapping filters.sort_option = ("Date Added", false) := by
    simp only [sort_mapping, if_neg h1, if_neg h2, if_neg h3, if_neg h4, if_neg h5,
      if_neg h6, if_neg h7, if_neg h8]
  have hr : sort_mapping "Date Added (Newest)" = ("Date Added", false) := rfl
  simp only [filter_and_sort_books, textFilterStage, hm, hr]

theorem c3_sort_default_witness :
    filter_and_sort_books (["a", "b"].map cbook)
      { search_query := "", genre_filter := [], status_filter := [], year_min := 0,
        year_max := 3000, rating_filter := 0, sort_option := "Shuffle" } =
    filter_and_sort_books (["a", "b"].map cbook)
      { search_query := "", genre_filter := [], status_filter := [], year_min := 0,
        year_max := 3000, rating_filter := 0, sort_option := "Date Added (Newest)" } :=
  c3_sort_default_amended _ _ (by decide)
